import Mathlib

/-!
Verification development for src/Interstate_Parkway_KMZGenerator.py.

Shallow embedding conventions, translated from the source:
* Python strings are modelled as lists of characters (`PyStr`), so that
  slicing such as fn[:-4] and suffix tests follow character semantics.
* Stateful pieces are given explicit state: drive-letter bindings are a map
  from letters to network paths, the export directory is a list of entries,
  and the published trees are lists of file records keyed by the directory
  path relative to the walk root.  os.path.samefile is modelled as equality
  of a numeric file identity carried by each file record.
* Each try/except handler of the script is modelled by the list of actions
  its body performs, in order, together with the exit code it produces.
-/

namespace KMZGen

/-- Python strings as lists of characters. -/
abbrev PyStr := List Char

/-- Failure notification subject, source line 42. -/
def ERROR_SUBJECT : String := "Interstate_Parkway KMZ Generator ETL TST Error"

/-- Success notification subject, source line 48. -/
def SUCCESS_SUBJECT : String := "Interstate_Parkway KMZ Generator ETL TST Success"

/-- Hardcoded network path used by the final J: rebinding, source line 257. -/
def HIS_ARCHIVES_PATH : PyStr := ("\\\\eas.ds.ky.gov\\dfs\\HIS_Archives".data)

/-- Python endswith on character lists: a suffix test. -/
def pyEndsWith (s suffix : PyStr) : Bool := decide (suffix <:+ s)

/-- Python slice s[:-n] on character lists: everything but the last n characters. -/
def pyDropLast (s : PyStr) (n : Nat) : PyStr := s.take (s.length - n)

/-!
Drive-letter state.  `net use L:` succeeds exactly when the letter is bound,
so is_drive_mapped (source lines 78-80) is modelled as a lookup.  The two
drive operations (source lines 82-104) take a flag saying whether the
underlying net-use subprocess would fail; `exited` records that the except
branch terminated the process.
-/

/-- Drive-letter bindings of the host machine: letter to network path. -/
abbrev DriveState := String → Option PyStr

/-- Source lines 78-80: net use succeeds exactly when the letter is bound. -/
def is_drive_mapped (s : DriveState) (drive_letter : String) : Bool :=
  (s drive_letter).isSome

/-- Result of one drive operation: the new binding state, whether a net-use
command was issued, and whether the operation terminated the process. -/
structure DriveOp where
  state : DriveState
  cmdIssued : Bool
  exited : Bool

/-- Source lines 82-91: bind the letter only when it is not already bound.
If the bind subprocess fails, the except branch logs and exits with code 1. -/
def map_network_drive (bindFails : Bool) (s : DriveState)
    (drive_letter : String) (network_path : PyStr) : DriveOp :=
  if is_drive_mapped s drive_letter then
    { state := s, cmdIssued := false, exited := false }
  else if bindFails then
    { state := s, cmdIssued := true, exited := true }
  else
    { state := Function.update s drive_letter (some network_path),
      cmdIssued := true, exited := false }

/-- Source lines 93-104: delete the binding only when the letter is bound;
otherwise only an informational line is logged and nothing happens. -/
def unmap_network_drive (deleteFails : Bool) (s : DriveState)
    (drive_letter : String) : DriveOp :=
  if is_drive_mapped s drive_letter then
    if deleteFails then
      { state := s, cmdIssued := true, exited := true }
    else
      { state := Function.update s drive_letter none,
        cmdIssued := true, exited := false }
  else
    { state := s, cmdIssued := false, exited := false }

/-!
Error handlers.  Every try/except site of the script is modelled by the list
of externally visible actions its body performs when the exception is caught.
-/

/-- One externally visible action of an except branch. -/
inductive HandlerAction where
  /-- A logging.error call; the flag records whether the logged message
  actually interpolates the extracted source line number. -/
  | logError (withLineNumber : Bool)
  /-- A sendEmail call with the given subject. -/
  | sendEmail (subject : String)
  /-- A sys.exit call with the given code. -/
  | exitProcess (code : Nat)
  /-- The handler body itself raises before completing (the interpreter then
  terminates with status 1, without logging or emailing). -/
  | raiseUncaught
deriving DecidableEq

/-- Source lines 65-70 (delete_files_in_directory): the logged message on
line 68 is a plain string literal, not an f-string, so the extracted line
number is never interpolated into it. -/
def delete_files_handler : List HandlerAction :=
  [HandlerAction.logError false, HandlerAction.sendEmail ERROR_SUBJECT,
   HandlerAction.exitProcess 1]

/-- Source lines 160-166: a JSONDecodeError is only raised by json.load on
line 137, before the name working_dir is ever bound, so line 163
(os.path.join(working_dir, ...)) raises NameError inside the handler. -/
def config_json_handler : List HandlerAction :=
  [HandlerAction.raiseUncaught]

/-- Source lines 167-173: when the caught exception left working_dir bound
(empty working_dir, missing sde_dir or prd_conn) the handler logs with the
line number, emails and exits 1; when working_dir itself was the missing key
the handler hits an unbound name on line 170 and raises. -/
def config_generic_handler (workingDirBound : Bool) : List HandlerAction :=
  if workingDirBound then
    [HandlerAction.logError true, HandlerAction.sendEmail ERROR_SUBJECT,
     HandlerAction.exitProcess 1]
  else
    [HandlerAction.raiseUncaught]

/-- Source lines 184-189: workspace cleaning errors. -/
def cleanup_handler : List HandlerAction :=
  [HandlerAction.logError true, HandlerAction.sendEmail ERROR_SUBJECT,
   HandlerAction.exitProcess 1]

/-- Source lines 205-210: conversion errors. -/
def conversion_handler : List HandlerAction :=
  [HandlerAction.logError true, HandlerAction.sendEmail ERROR_SUBJECT,
   HandlerAction.exitProcess 1]

/-- Source lines 87-91 (map_network_drive): the except branch logs with the
line number and exits 1, but sends no email. -/
def map_drive_handler : List HandlerAction :=
  [HandlerAction.logError true, HandlerAction.exitProcess 1]

/-- Source lines 98-102 (unmap_network_drive): the except clause does not
bind the exception to a name, so the reference to e on line 100 raises
NameError before logging.error runs. -/
def unmap_drive_handler : List HandlerAction :=
  [HandlerAction.raiseUncaught]

/-- Every caught-error handler execution of the script, one entry per
except-site behaviour. -/
def caughtErrorHandlers : List (List HandlerAction) :=
  [delete_files_handler, config_json_handler,
   config_generic_handler true, config_generic_handler false,
   cleanup_handler, conversion_handler,
   map_drive_handler, unmap_drive_handler]

/-!
Workspace cleaner, source lines 57-70 and 176-189.  The export directory is
a list of entries; every entry is a top-level file or a subdirectory.
-/

/-- An entry of the export directory: a file or a subdirectory with its own
contents. -/
inductive Entry where
  | file (name : PyStr)
  | dir (name : PyStr) (contents : List Entry)

/-- Whether an entry is a file (os.path.isfile). -/
def Entry.isFile : Entry → Bool
  | Entry.file _ => true
  | Entry.dir _ _ => false

/-- Whether an entry is a directory (os.path.isdir). -/
def Entry.isDir : Entry → Bool
  | Entry.file _ => false
  | Entry.dir _ _ => true

/-- Source lines 177-180: shutil.rmtree removes each subdirectory of the
export directory, with all of its contents. -/
def remove_subdirectories (es : List Entry) : List Entry :=
  es.filter (fun e => !(Entry.isDir e))

/-- Source lines 57-63: os.remove on every top-level entry that is a file. -/
def delete_files_in_directory (es : List Entry) : List Entry :=
  es.filter (fun e => !(Entry.isFile e))

/-- Source lines 176-182, the whole cleanup block: remove subdirectories,
then top-level files; the export directory itself is never removed and the
returned list is its new contents. -/
def cleanupBlock (es : List Entry) : List Entry :=
  delete_files_in_directory (remove_subdirectories es)

/-!
Conversion step, source lines 192-204.
-/

/-- The fixed suffix literal of source line 194. -/
def lyrxSuffix : PyStr := ("lyrx".data)

/-- The fixed bounding box passed on source line 202. -/
def KMZ_BOUNDARY : String :=
  "3854285.94004372 3350081.56140465 5994554.76153164 4302135.45716181"

/-- One invocation of arcpy.LayerToKML_conversion with its arguments,
source lines 201-203. -/
structure ConvCall where
  layer_source : PyStr
  kmzEXPORT : PyStr
  layerScale : Nat
  isComposite : String
  boundaryExtent : String
  imageSize : Nat
  dpi : Nat
  heightClamp : String
deriving DecidableEq

/-- Source lines 194-203, the body of the conversion loop for one listed
file name: files ending in lyrx produce exactly one converter call whose
output name replaces the last four characters by kmz. -/
def convOne (layer_dir export_dir : PyStr) (fn : PyStr) : Option ConvCall :=
  if pyEndsWith fn lyrxSuffix then
    some { layer_source := layer_dir ++ ("\\".data) ++ fn
         , kmzEXPORT := export_dir ++ ("\\".data) ++ (pyDropLast fn 4 ++ ("kmz".data))
         , layerScale := 0
         , isComposite := "NO_COMPOSITE"
         , boundaryExtent := KMZ_BOUNDARY
         , imageSize := 1024
         , dpi := 96
         , heightClamp := "CLAMPED_TO_GROUND" }
  else none

/-- Source lines 193-203: the conversion loop over the layer directory
listing. -/
def convertStep (layer_dir export_dir : PyStr) (files : List PyStr) :
    List ConvCall :=
  files.filterMap (convOne layer_dir export_dir)

/-!
Publisher, source lines 220-235.  The walk of the local export tree is
flattened to the list of its files; each file record carries the directory
path of the file relative to the walk root (the same relative path names its
destination under the remote root, which is what the replace on line 224
computes), the file name, and a numeric filesystem identity used to model
os.path.samefile.
-/

/-- Directory path as a list of components, relative to a walk root. -/
abbrev DirPath := List PyStr

/-- One file of a walked tree. -/
structure FileRec where
  dirPath : DirPath
  name : PyStr
  fid : Nat
deriving DecidableEq

/-- Whether two file records name the same destination entry (same relative
directory and file name); this is the os.path.exists test on line 230. -/
def sameEntry (f g : FileRec) : Bool :=
  decide (f.dirPath = g.dirPath ∧ f.name = g.name)

/-- Source lines 225-226: os.makedirs on the destination directory when it
does not yet exist. -/
def pubDirs (f : FileRec) (dirs : List DirPath) : List DirPath :=
  if f.dirPath ∈ dirs then dirs else dirs ++ [f.dirPath]

/-- Source lines 223-235: walk every source file; create its destination
directory when missing; when a destination file of the same relative path
and name exists, skip the file entirely when it is literally the same file
(the continue on line 233, which leaves the source file in place), otherwise
remove the destination file first; finally move the source file over.
Returns the files remaining in the source tree, the files of the destination
tree and the set of existing destination directories. -/
def publishWalk : List FileRec → List FileRec → List DirPath →
    List FileRec × List FileRec × List DirPath
  | [], dst, dirs => ([], dst, dirs)
  | f :: rest, dst, dirs =>
    match dst.find? (fun g => sameEntry f g) with
    | some g =>
      if g.fid = f.fid then
        (f :: (publishWalk rest dst (pubDirs f dirs)).1,
         (publishWalk rest dst (pubDirs f dirs)).2)
      else
        publishWalk rest (dst.eraseP (fun g2 => sameEntry f g2) ++ [f])
          (pubDirs f dirs)
    | none => publishWalk rest (dst ++ [f]) (pubDirs f dirs)

/-!
Verifier, source lines 239-252.
-/

/-- A file of the remote destination listing together with the calendar date
of its creation timestamp (datetime.fromtimestamp(os.path.getctime(..)).date()),
dates being abstracted to day numbers. -/
structure RemoteFile where
  name : PyStr
  ctimeDate : Nat
deriving DecidableEq

/-- The output-suffix test of source line 242. -/
def isKmzName (n : PyStr) : Bool := pyEndsWith n (".kmz".data)

/-- Source lines 239-248: scan the remote listing; for each file with the
output suffix compare its creation date with the run date; the first
mismatch clears the flag and breaks out of the loop.  Returns the final
all_files_correct flag and the names logged as successful, in order. -/
def verifyLoop (today : Nat) : List RemoteFile → Bool × List PyStr
  | [] => (true, [])
  | f :: rest =>
    if isKmzName f.name then
      if f.ctimeDate = today then
        ((verifyLoop today rest).1, f.name :: (verifyLoop today rest).2)
      else (false, [])
    else verifyLoop today rest

/-!
Configuration loading, source lines 131-173.
-/

/-- The nested drive_mappings object of config.json; each entry may be
absent. -/
structure DriveMappings where
  j_drive : Option PyStr
  n_drive : Option PyStr
deriving DecidableEq

/-- The parsed config.json contents; a field is none when the key is absent. -/
structure ConfigData where
  working_dir : Option PyStr
  sde_dir : Option PyStr
  prd_conn : Option PyStr
  drive_mappings : Option DriveMappings
deriving DecidableEq

/-- The distinct ways the config block can fail, source lines 140-157:
a missing key raises KeyError, an empty working_dir raises ValueError. -/
inductive ConfigError where
  | missingWorkingDir
  | emptyWorkingDir
  | missingSdeDir
  | missingPrdConn
deriving DecidableEq

/-- The run parameters bound by the config block when it completes. -/
structure Params where
  working_dir : PyStr
  sde_dir : PyStr
  prd_conn : PyStr
  j_drive : Option PyStr
  n_drive : Option PyStr
deriving DecidableEq

/-- The empty-dict default of data.get("drive_mappings", uses) on lines
156-157. -/
def emptyDriveMappings : DriveMappings := { j_drive := none, n_drive := none }

/-- Source lines 140-157: working_dir is looked up (KeyError when absent)
and checked for emptiness (ValueError when falsy); sde_dir and prd_conn are
looked up (KeyError when absent) with no emptiness check; the two drive
paths are read with defaulting .get chains, so their absence is never an
error and no emptiness check is applied to them. -/
def loadConfig (d : ConfigData) : Except ConfigError Params :=
  match d.working_dir with
  | none => Except.error ConfigError.missingWorkingDir
  | some w =>
    if w.isEmpty then Except.error ConfigError.emptyWorkingDir
    else
      match d.sde_dir with
      | none => Except.error ConfigError.missingSdeDir
      | some s =>
        match d.prd_conn with
        | none => Except.error ConfigError.missingPrdConn
        | some p =>
          Except.ok { working_dir := w, sde_dir := s, prd_conn := p
                    , j_drive := (d.drive_mappings.getD emptyDriveMappings).j_drive
                    , n_drive := (d.drive_mappings.getD emptyDriveMappings).n_drive }

/-!
Main pipeline tail, source lines 213-263: drive toggle, publish, verify,
and the two terminal paths.  The net-use subprocesses are taken to succeed
here (their failure behaviour is the separately modelled handler lists).
The remote directory listing read back on line 241, with the creation dates
the operating system reports, is an environment input.
-/

/-- Outcome of the pipeline tail: final drive bindings, email subjects sent,
process exit code, whether termination was an uncaught exception, and the
publisher results. -/
structure MainTailResult where
  drives : DriveState
  emails : List String
  exitCode : Nat
  crashed : Bool
  localAfter : List FileRec
  remoteAfter : List FileRec
  dirsAfter : List DirPath

/-- Source lines 220-263 after the N: drive is available: publish the local
tree, verify the remote listing; on a mismatch send the failure email and
exit 1 with the drive bindings left as they are; otherwise unmap N:, rebind
J: to the hardcoded archive path, and send the success email (the process
then ends with exit code 0). -/
def afterMapN (s2 : DriveState) (src dst : List FileRec) (dirs : List DirPath)
    (today : Nat) (remote : List RemoteFile) : MainTailResult :=
  if (verifyLoop today remote).1 then
    { drives := (map_network_drive false
        ((unmap_network_drive false s2 "N:").state) "J:" HIS_ARCHIVES_PATH).state
    , emails := [SUCCESS_SUBJECT]
    , exitCode := 0
    , crashed := false
    , localAfter := (publishWalk src dst dirs).1
    , remoteAfter := (publishWalk src dst dirs).2.1
    , dirsAfter := (publishWalk src dst dirs).2.2 }
  else
    { drives := s2
    , emails := [ERROR_SUBJECT]
    , exitCode := 1
    , crashed := false
    , localAfter := (publishWalk src dst dirs).1
    , remoteAfter := (publishWalk src dst dirs).2.1
    , dirsAfter := (publishWalk src dst dirs).2.2 }

/-- Source lines 213-263: unmap J:, then map N: (when N: is not already
bound the configured n_drive path is required: if it is absent the net-use
call receives None and raises TypeError, which no handler catches), then
publish and verify. -/
def mainTail (s0 : DriveState) (nOpt : Option PyStr) (src dst : List FileRec)
    (dirs : List DirPath) (today : Nat) (remote : List RemoteFile) :
    MainTailResult :=
  if is_drive_mapped ((unmap_network_drive false s0 "J:").state) "N:" then
    afterMapN ((unmap_network_drive false s0 "J:").state) src dst dirs today remote
  else
    match nOpt with
    | none =>
      { drives := (unmap_network_drive false s0 "J:").state
      , emails := []
      , exitCode := 1
      , crashed := true
      , localAfter := src
      , remoteAfter := dst
      , dirsAfter := dirs }
    | some n =>
      afterMapN ((map_network_drive false
          ((unmap_network_drive false s0 "J:").state) "N:" n).state)
        src dst dirs today remote

/-- Environment of one run: filesystem contents the script reads, the drive
bindings at start, and the run date. -/
structure RunEnv where
  exportDirContents : List Entry
  layerListing : List PyStr
  stagedFiles : List FileRec
  remoteFiles : List FileRec
  remoteDirs : List DirPath
  remoteListing : List RemoteFile
  drives0 : DriveState
  today : Nat

/-- Result of a whole run. -/
structure RunResult where
  configOk : Bool
  crashed : Bool
  emails : List String
  exitCode : Nat
  drives : DriveState
  cleanedExport : List Entry
  convCalls : List ConvCall
  localAfter : List FileRec
  remoteAfter : List FileRec
  dirsAfter : List DirPath

/-- The whole script, source lines 127-263: load the config, clean the
export directory, run the conversion loop over the layer directory listing,
then the pipeline tail.  A missing working_dir key makes the except branch
itself raise (unbound name on line 170), so that path neither logs nor
emails; the other config failures email and exit 1. -/
def runMain (d : ConfigData) (env : RunEnv) : RunResult :=
  match loadConfig d with
  | Except.error ConfigError.missingWorkingDir =>
    { configOk := false, crashed := true, emails := [], exitCode := 1
    , drives := env.drives0, cleanedExport := env.exportDirContents
    , convCalls := [], localAfter := env.stagedFiles
    , remoteAfter := env.remoteFiles, dirsAfter := env.remoteDirs }
  | Except.error _ =>
    { configOk := false, crashed := false, emails := [ERROR_SUBJECT]
    , exitCode := 1, drives := env.drives0
    , cleanedExport := env.exportDirContents, convCalls := []
    , localAfter := env.stagedFiles, remoteAfter := env.remoteFiles
    , dirsAfter := env.remoteDirs }
  | Except.ok ps =>
    { configOk := true
    , crashed := (mainTail env.drives0 ps.n_drive env.stagedFiles
        env.remoteFiles env.remoteDirs env.today env.remoteListing).crashed
    , emails := (mainTail env.drives0 ps.n_drive env.stagedFiles
        env.remoteFiles env.remoteDirs env.today env.remoteListing).emails
    , exitCode := (mainTail env.drives0 ps.n_drive env.stagedFiles
        env.remoteFiles env.remoteDirs env.today env.remoteListing).exitCode
    , drives := (mainTail env.drives0 ps.n_drive env.stagedFiles
        env.remoteFiles env.remoteDirs env.today env.remoteListing).drives
    , cleanedExport := cleanupBlock env.exportDirContents
    , convCalls := convertStep (ps.working_dir ++ ("\\LayerFiles".data))
        (ps.working_dir ++ ("\\KMZ_Exports".data)) env.layerListing
    , localAfter := (mainTail env.drives0 ps.n_drive env.stagedFiles
        env.remoteFiles env.remoteDirs env.today env.remoteListing).localAfter
    , remoteAfter := (mainTail env.drives0 ps.n_drive env.stagedFiles
        env.remoteFiles env.remoteDirs env.today env.remoteListing).remoteAfter
    , dirsAfter := (mainTail env.drives0 ps.n_drive env.stagedFiles
        env.remoteFiles env.remoteDirs env.today env.remoteListing).dirsAfter }

/-!
Concrete fixtures used by witness and counterexample theorems.
-/

/-- A config with every field present and nonempty. -/
def cfgFull : ConfigData :=
  { working_dir := some ("C:\\Work".data), sde_dir := some ("sde".data)
  , prd_conn := some ("prd".data)
  , drive_mappings := some { j_drive := some ("\\\\j".data)
                           , n_drive := some ("\\\\n".data) } }

/-- A config whose drive_mappings key is absent entirely. -/
def cfgNoDrives : ConfigData :=
  { working_dir := some ("C:\\Work".data), sde_dir := some ("sde".data)
  , prd_conn := some ("prd".data), drive_mappings := none }

/-- A machine with no drive letter bound. -/
def noDrives : DriveState := fun _ => none

/-- An environment whose remote listing carries one output file dated the
run date. -/
def envSuccess : RunEnv :=
  { exportDirContents := [], layerListing := [], stagedFiles := []
  , remoteFiles := [], remoteDirs := []
  , remoteListing := [{ name := ("a.kmz".data), ctimeDate := 5 }]
  , drives0 := noDrives, today := 5 }

/-- A file record used to exhibit the samefile skip of the publisher. -/
def pubSame : FileRec := { dirPath := [], name := ("a.kmz".data), fid := 7 }

/-!
Theorems.
-/

/-- C6: the drive-binding operation is idempotent: a second call in a row
returns the state unchanged and issues no bind command; a bind command is
issued exactly when the letter was not already bound; after the call the
letter is bound. -/
theorem C6_map_network_drive_idempotent (s : DriveState) (l : String)
    (p : PyStr) (f2 : Bool) :
    map_network_drive f2 (map_network_drive false s l p).state l p =
      { state := (map_network_drive false s l p).state
      , cmdIssued := false, exited := false }
    ∧ (map_network_drive false s l p).cmdIssued = !(is_drive_mapped s l)
    ∧ is_drive_mapped (map_network_drive false s l p).state l = true := by
  by_cases h : (s l).isSome = true
  · simp [map_network_drive, is_drive_mapped, h]
  · simp only [Bool.not_eq_true] at h
    simp [map_network_drive, is_drive_mapped, h, Function.update_same]

/-- C7: calling the unbind operation on a letter that is not currently bound
is a no-op: the state is unchanged, no delete command is issued, and the
process is not terminated, whether or not the delete subprocess would fail. -/
theorem C7_unmap_network_drive_noop (s : DriveState) (l : String) (df : Bool)
    (h : is_drive_mapped s l = false) :
    unmap_network_drive df s l = { state := s, cmdIssued := false, exited := false } := by
  simp [unmap_network_drive, h]

/-- Witness for C7 at a concrete state with no bindings. -/
theorem C7_unmap_network_drive_noop_witness :
    unmap_network_drive true (fun _ => none) "J:" =
      { state := fun _ => none, cmdIssued := false, exited := false } :=
  C7_unmap_network_drive_noop (fun _ => none) "J:" true rfl

/-- Helper: after removing the subdirectories and then the top-level files
nothing remains, every entry being one or the other. -/
theorem cleanupBlock_eq_nil (es : List Entry) : cleanupBlock es = [] := by
  induction es with
  | nil => rfl
  | cons e rest ih =>
    cases e with
    | file n =>
      simpa [cleanupBlock, remove_subdirectories, delete_files_in_directory,
        Entry.isDir, Entry.isFile] using ih
    | dir n cs =>
      simpa [cleanupBlock, remove_subdirectories, delete_files_in_directory,
        Entry.isDir, Entry.isFile] using ih

/-- C3: after the cleanup block completes, the export directory (whose new
contents the block returns, the directory itself never being removed)
contains zero files and zero subdirectories. -/
theorem C3_cleaner_empties_directory (es : List Entry) :
    (cleanupBlock es).countP Entry.isFile = 0
    ∧ (cleanupBlock es).countP Entry.isDir = 0 := by
  rw [cleanupBlock_eq_nil]
  exact ⟨rfl, rfl⟩

/-- Helper: when the pipeline tail past the N: mapping exits with code 0 it
did not crash and sent exactly the success email. -/
theorem afterMapN_exit_zero (s2 : DriveState) (src dst : List FileRec)
    (dirs : List DirPath) (t : Nat) (remote : List RemoteFile) :
    (afterMapN s2 src dst dirs t remote).exitCode = 0 →
    (afterMapN s2 src dst dirs t remote).crashed = false
    ∧ (afterMapN s2 src dst dirs t remote).emails = [SUCCESS_SUBJECT] := by
  unfold afterMapN
  split <;> simp

/-- Helper: when the pipeline tail exits with code 0 it did not crash and
sent exactly the success email. -/
theorem mainTail_exit_zero (s0 : DriveState) (nOpt : Option PyStr)
    (src dst : List FileRec) (dirs : List DirPath) (t : Nat)
    (remote : List RemoteFile) :
    (mainTail s0 nOpt src dst dirs t remote).exitCode = 0 →
    (mainTail s0 nOpt src dst dirs t remote).crashed = false
    ∧ (mainTail s0 nOpt src dst dirs t remote).emails = [SUCCESS_SUBJECT] := by
  unfold mainTail
  split
  · exact afterMapN_exit_zero _ _ _ _ _ _
  · cases nOpt with
    | none => simp
    | some n => exact afterMapN_exit_zero _ _ _ _ _ _

/-- C1 as stated is false: the map_network_drive except branch (source lines
87-91) is a caught-error site that logs with a line number and exits 1 but
never sends the failure-notification email. -/
theorem C1_counterexample :
    ¬ (∀ h ∈ caughtErrorHandlers,
        HandlerAction.logError true ∈ h
        ∧ HandlerAction.sendEmail ERROR_SUBJECT ∈ h
        ∧ HandlerAction.exitProcess 1 ∈ h) := by
  decide

/-- C1 amended: every caught error terminates the process, always with exit
status 1 (either via sys.exit(1) or because the handler itself raises and
the interpreter exits 1); the caught-error sites other than the two drive
handlers and the two handlers that raise on an unbound name do send the
failure email; and exit code 0 is reached only on full success, in which
case exactly the success email was sent. -/
theorem C1_amended_handler_policy :
    (∀ h ∈ caughtErrorHandlers,
        HandlerAction.exitProcess 1 ∈ h ∨ h = [HandlerAction.raiseUncaught])
    ∧ (∀ h ∈ caughtErrorHandlers, ∀ c, HandlerAction.exitProcess c ∈ h → c = 1)
    ∧ (∀ h ∈ caughtErrorHandlers,
        HandlerAction.sendEmail ERROR_SUBJECT ∈ h
        ∨ h = map_drive_handler ∨ h = [HandlerAction.raiseUncaught])
    ∧ (∀ d env, (runMain d env).exitCode = 0 →
        (runMain d env).crashed = false
        ∧ (runMain d env).emails = [SUCCESS_SUBJECT]) := by
  refine ⟨by decide, ?_, by decide, ?_⟩
  · intro h hh c hc
    fin_cases hh <;>
      simp_all [delete_files_handler, config_json_handler,
        config_generic_handler, cleanup_handler, conversion_handler,
        map_drive_handler, unmap_drive_handler]
  intro d env h0
  cases hc : loadConfig d with
  | error e =>
    cases e <;> simp [runMain, hc] at h0
  | ok ps =>
    simp only [runMain, hc] at h0 ⊢
    exact mainTail_exit_zero _ _ _ _ _ _ _ h0

/-- Witness for the amended C1 at a concrete fully successful run. -/
theorem C1_amended_handler_policy_witness :
    (runMain cfgFull envSuccess).crashed = false
    ∧ (runMain cfgFull envSuccess).emails = [SUCCESS_SUBJECT] :=
  C1_amended_handler_policy.2.2.2 cfgFull envSuccess (by decide)

/-- C8 as stated is false: with both drive-mapping network paths absent from
the config (working_dir, sde_dir and prd_conn present and nonempty) the
config block completes, binding none for both paths, and the run proceeds
past configuration loading. -/
theorem C8_counterexample :
    (loadConfig cfgNoDrives).isOk = true
    ∧ loadConfig cfgNoDrives =
        Except.ok { working_dir := ("C:\\Work".data), sde_dir := ("sde".data)
                  , prd_conn := ("prd".data), j_drive := none, n_drive := none }
    ∧ (runMain cfgNoDrives envSuccess).configOk = true := by
  refine ⟨rfl, rfl, rfl⟩

/-- C8 amended: configuration loading fails exactly when the working_dir key
is absent or empty, the sde_dir key is absent, or the prd_conn key is
absent; empty sde_dir or prd_conn values are accepted, and the two
drive-mapping paths are read through defaulting lookups, so their absence or
emptiness is never checked. -/
theorem C8_amended_config_policy (d : ConfigData) :
    ((loadConfig d).isOk = true ↔
      ((∃ w, d.working_dir = some w ∧ w ≠ []) ∧ d.sde_dir ≠ none ∧ d.prd_conn ≠ none))
    ∧ (∀ ps, loadConfig d = Except.ok ps →
        ps.j_drive = (d.drive_mappings.getD emptyDriveMappings).j_drive
        ∧ ps.n_drive = (d.drive_mappings.getD emptyDriveMappings).n_drive) := by
  obtain ⟨wd, sd, pc, dm⟩ := d
  constructor
  · cases wd with
    | none => simp [loadConfig, Except.isOk, Except.toBool]
    | some w =>
      cases w with
      | nil => simp [loadConfig, Except.isOk, Except.toBool]
      | cons c cs =>
        cases sd <;> cases pc <;> simp [loadConfig, Except.isOk, Except.toBool]
  · intro ps hps
    cases wd with
    | none => simp [loadConfig] at hps
    | some w =>
      cases w with
      | nil => simp [loadConfig] at hps
      | cons c cs =>
        cases sd with
        | none => simp [loadConfig] at hps
        | some sv =>
          cases pc with
          | none => simp [loadConfig] at hps
          | some pv =>
            simp [loadConfig] at hps
            subst hps
            exact ⟨rfl, rfl⟩

/-- Witness for the amended C8 at the concrete config with no
drive_mappings key. -/
theorem C8_amended_config_policy_witness :
    ({ working_dir := ("C:\\Work".data), sde_dir := ("sde".data)
     , prd_conn := ("prd".data), j_drive := none, n_drive := none } : Params).j_drive
      = (cfgNoDrives.drive_mappings.getD emptyDriveMappings).j_drive
    ∧ ({ working_dir := ("C:\\Work".data), sde_dir := ("sde".data)
       , prd_conn := ("prd".data), j_drive := none, n_drive := none } : Params).n_drive
      = (cfgNoDrives.drive_mappings.getD emptyDriveMappings).n_drive :=
  (C8_amended_config_policy cfgNoDrives).2 _ rfl

/-- C10: the run behaviour is independent of the configured j_drive value:
two runs whose configurations differ only in that value produce identical
results. -/
theorem C10_j_drive_independent (wd sd pc : Option PyStr)
    (j1 j2 : Option PyStr) (n : Option PyStr) (env : RunEnv) :
    runMain { working_dir := wd, sde_dir := sd, prd_conn := pc
            , drive_mappings := some { j_drive := j1, n_drive := n } } env =
    runMain { working_dir := wd, sde_dir := sd, prd_conn := pc
            , drive_mappings := some { j_drive := j2, n_drive := n } } env := by
  cases wd with
  | none => rfl
  | some w =>
    cases w with
    | nil => rfl
    | cons c cs =>
      cases sd with
      | none => rfl
      | some sv =>
        cases pc with
        | none => rfl
        | some pv => rfl

/-- Helper: after unbinding a letter, that letter is unbound. -/
theorem unmap_state_self (s : DriveState) (l : String) :
    (unmap_network_drive false s l).state l = none := by
  unfold unmap_network_drive is_drive_mapped
  cases hsl : s l with
  | none => simp [hsl]
  | some v => simp [hsl, Function.update_same]

/-- Helper: unbinding one letter does not touch another. -/
theorem unmap_state_other (s : DriveState) (l l2 : String) (h : l2 ≠ l) :
    (unmap_network_drive false s l).state l2 = s l2 := by
  unfold unmap_network_drive is_drive_mapped
  cases hsl : s l with
  | none => simp [hsl]
  | some v => simp [hsl, Function.update_noteq h]

/-- Helper: after a successful bind the letter is bound. -/
theorem map_state_isSome (s : DriveState) (l : String) (p : PyStr) :
    ((map_network_drive false s l p).state l).isSome = true := by
  unfold map_network_drive is_drive_mapped
  cases hsl : s l with
  | none => simp [hsl, Function.update_same]
  | some v => simp [hsl]

/-- Helper: binding one letter does not touch another. -/
theorem map_state_other (s : DriveState) (l : String) (p : PyStr)
    (l2 : String) (h : l2 ≠ l) :
    (map_network_drive false s l p).state l2 = s l2 := by
  unfold map_network_drive is_drive_mapped
  cases hsl : s l with
  | none => simp [hsl, Function.update_noteq h]
  | some v => simp [hsl]

/-- Helper: binding an unbound letter binds it to the given path. -/
theorem map_state_self_of_none (s : DriveState) (l : String) (p : PyStr)
    (h : s l = none) :
    (map_network_drive false s l p).state l = some p := by
  unfold map_network_drive is_drive_mapped
  simp [h, Function.update_same]

/-- Helper: a failed verification makes the tail email the failure subject
and exit 1. -/
theorem afterMapN_fail (s2 : DriveState) (src dst : List FileRec)
    (dirs : List DirPath) (t : Nat) (remote : List RemoteFile)
    (hv : (verifyLoop t remote).1 = false) :
    afterMapN s2 src dst dirs t remote =
      { drives := s2, emails := [ERROR_SUBJECT], exitCode := 1, crashed := false
      , localAfter := (publishWalk src dst dirs).1
      , remoteAfter := (publishWalk src dst dirs).2.1
      , dirsAfter := (publishWalk src dst dirs).2.2 } := by
  simp [afterMapN, hv]

/-- Helper: a passed verification makes the tail reset the drives, email the
success subject and finish with exit code 0. -/
theorem afterMapN_success (s2 : DriveState) (src dst : List FileRec)
    (dirs : List DirPath) (t : Nat) (remote : List RemoteFile)
    (hv : (verifyLoop t remote).1 = true) :
    afterMapN s2 src dst dirs t remote =
      { drives := (map_network_drive false
          ((unmap_network_drive false s2 "N:").state) "J:" HIS_ARCHIVES_PATH).state
      , emails := [SUCCESS_SUBJECT], exitCode := 0, crashed := false
      , localAfter := (publishWalk src dst dirs).1
      , remoteAfter := (publishWalk src dst dirs).2.1
      , dirsAfter := (publishWalk src dst dirs).2.2 } := by
  simp [afterMapN, hv]

/-- C9: with a configured n_drive path present, any verification failure
exits with code 1 leaving the drive-letter state unrestored (N: still bound,
J: still unbound), while the unmap of N: and the rebind of J: to the
hardcoded archive path happen exactly on the success path. -/
theorem C9_drive_state (s0 : DriveState) (n : PyStr) (src dst : List FileRec)
    (dirs : List DirPath) (t : Nat) (remote : List RemoteFile) :
    ((verifyLoop t remote).1 = false →
      (mainTail s0 (some n) src dst dirs t remote).exitCode = 1
      ∧ (mainTail s0 (some n) src dst dirs t remote).drives "J:" = none
      ∧ (((mainTail s0 (some n) src dst dirs t remote).drives "N:").isSome = true))
    ∧ ((verifyLoop t remote).1 = true →
      (mainTail s0 (some n) src dst dirs t remote).exitCode = 0
      ∧ (mainTail s0 (some n) src dst dirs t remote).drives "N:" = none
      ∧ (mainTail s0 (some n) src dst dirs t remote).drives "J:" = some HIS_ARCHIVES_PATH) := by
  have hJN : ("J:" : String) ≠ "N:" := by decide
  have hNJ : ("N:" : String) ≠ "J:" := by decide
  by_cases hm : is_drive_mapped ((unmap_network_drive false s0 "J:").state) "N:" = true
  · rw [mainTail, if_pos hm]
    constructor
    · intro hv
      rw [afterMapN_fail _ _ _ _ _ _ hv]
      refine ⟨rfl, ?_, ?_⟩
      · exact unmap_state_self s0 "J:"
      · simpa [is_drive_mapped] using hm
    · intro hv
      rw [afterMapN_success _ _ _ _ _ _ hv]
      refine ⟨rfl, ?_, ?_⟩
      · exact (map_state_other _ "J:" HIS_ARCHIVES_PATH "N:" hNJ).trans
          (unmap_state_self _ "N:")
      · exact map_state_self_of_none _ _ _
          ((unmap_state_other _ "N:" "J:" hJN).trans (unmap_state_self s0 "J:"))
  · rw [mainTail, if_neg hm]
    constructor
    · intro hv
      rw [afterMapN_fail _ _ _ _ _ _ hv]
      refine ⟨rfl, ?_, ?_⟩
      · exact (map_state_other _ "N:" n "J:" hJN).trans (unmap_state_self s0 "J:")
      · exact map_state_isSome _ _ _
    · intro hv
      rw [afterMapN_success _ _ _ _ _ _ hv]
      refine ⟨rfl, ?_, ?_⟩
      · exact (map_state_other _ "J:" HIS_ARCHIVES_PATH "N:" hNJ).trans
          (unmap_state_self _ "N:")
      · exact map_state_self_of_none _ _ _
          ((unmap_state_other _ "N:" "J:" hJN).trans
            ((map_state_other _ "N:" n "J:" hJN).trans (unmap_state_self s0 "J:")))

/-- Witness for C9 at a concrete stale remote listing. -/
theorem C9_drive_state_witness :
    (mainTail noDrives (some ("\\\\n".data)) [] [] [] 5
        [{ name := ("a.kmz".data), ctimeDate := 2 }]).exitCode = 1
    ∧ (mainTail noDrives (some ("\\\\n".data)) [] [] [] 5
        [{ name := ("a.kmz".data), ctimeDate := 2 }]).drives "J:" = none
    ∧ (((mainTail noDrives (some ("\\\\n".data)) [] [] [] 5
        [{ name := ("a.kmz".data), ctimeDate := 2 }]).drives "N:").isSome = true) :=
  (C9_drive_state noDrives ("\\\\n".data) [] [] [] 5
    [{ name := ("a.kmz".data), ctimeDate := 2 }]).1 (by decide)

/-- Helper: the all_files_correct flag is true exactly when every listed
file with the output suffix is dated the run date. -/
theorem verifyLoop_flag_iff (t : Nat) (fs : List RemoteFile) :
    (verifyLoop t fs).1 = true ↔
      ∀ f ∈ fs, isKmzName f.name = true → f.ctimeDate = t := by
  induction fs with
  | nil => simp [verifyLoop]
  | cons f rest ih =>
    by_cases hk : isKmzName f.name = true
    · by_cases hd : f.ctimeDate = t
      · simpa [verifyLoop, hk, hd] using ih
      · simp [verifyLoop, hk, hd]
    · have hk2 : isKmzName f.name = false := by
        simpa using hk
      simpa [verifyLoop, hk2] using ih

/-- Helper: once a stale output file is reached, the loop result does not
depend on the remaining files at all. -/
theorem verifyLoop_shortCircuit (t : Nat) (f : RemoteFile)
    (hk : isKmzName f.name = true) (hd : f.ctimeDate ≠ t) :
    ∀ pre post post2,
      verifyLoop t (pre ++ f :: post) = verifyLoop t (pre ++ f :: post2) := by
  intro pre
  induction pre with
  | nil => intro post post2; simp [verifyLoop, hk, hd]
  | cons g rest ih =>
    intro post post2
    by_cases hgk : isKmzName g.name = true
    · by_cases hgd : g.ctimeDate = t
      · simp [verifyLoop, hgk, hgd, ih post post2]
      · simp [verifyLoop, hgk, hgd]
    · have hgk2 : isKmzName g.name = false := by simpa using hgk
      simp [verifyLoop, hgk2, ih post post2]

/-- Helper: when the stale file is the first stale output file, the loop
returns a cleared flag having logged exactly the output files before it. -/
theorem verifyLoop_logged_prefix (t : Nat) (f : RemoteFile)
    (hk : isKmzName f.name = true) (hd : f.ctimeDate ≠ t) :
    ∀ pre post, (∀ g ∈ pre, isKmzName g.name = true → g.ctimeDate = t) →
      verifyLoop t (pre ++ f :: post) =
        (false, (pre.filter (fun g => isKmzName g.name)).map RemoteFile.name) := by
  intro pre
  induction pre with
  | nil => intro post hok; simp [verifyLoop, hk, hd]
  | cons g rest ih =>
    intro post hok
    by_cases hgk : isKmzName g.name = true
    · have hgd : g.ctimeDate = t := hok g (List.mem_cons_self g rest) hgk
      have ihr := ih post fun x hx => hok x (List.mem_cons_of_mem g hx)
      simp [verifyLoop, hgk, hgd, ihr]
    · have hgk2 : isKmzName g.name = false := by simpa using hgk
      have ihr := ih post fun x hx => hok x (List.mem_cons_of_mem g hx)
      simp [verifyLoop, hgk2, ihr]

/-- C5: the verifier flag is true exactly when every remote file with the
output suffix is dated the run date; the first stale output file clears the
flag with the loop short-circuiting (the remaining files influence nothing,
and only the output files before the stale one were logged as successful);
a cleared flag makes the run email the failure subject and exit 1, while a
set flag makes the run finish with exit code 0 and the success email. -/
theorem C5_verifier (t : Nat) (fs : List RemoteFile) :
    ((verifyLoop t fs).1 = true ↔
      ∀ f ∈ fs, isKmzName f.name = true → f.ctimeDate = t)
    ∧ (∀ pre f post post2, fs = pre ++ f :: post → isKmzName f.name = true →
        f.ctimeDate ≠ t →
        verifyLoop t fs = verifyLoop t (pre ++ f :: post2)
        ∧ ((∀ g ∈ pre, isKmzName g.name = true → g.ctimeDate = t) →
            verifyLoop t fs =
              (false, (pre.filter (fun g => isKmzName g.name)).map RemoteFile.name)))
    ∧ ((verifyLoop t fs).1 = false → ∀ s0 n src dst dirs,
        (mainTail s0 (some n) src dst dirs t fs).exitCode = 1
        ∧ ERROR_SUBJECT ∈ (mainTail s0 (some n) src dst dirs t fs).emails)
    ∧ ((verifyLoop t fs).1 = true → ∀ s0 n src dst dirs,
        (mainTail s0 (some n) src dst dirs t fs).exitCode = 0
        ∧ SUCCESS_SUBJECT ∈ (mainTail s0 (some n) src dst dirs t fs).emails) := by
  refine ⟨verifyLoop_flag_iff t fs, ?_, ?_, ?_⟩
  · intro pre f post post2 hfs hk hd
    subst hfs
    exact ⟨verifyLoop_shortCircuit t f hk hd pre post post2,
      fun hok => verifyLoop_logged_prefix t f hk hd pre post hok⟩
  · intro hv s0 n src dst dirs
    rw [mainTail]
    split
    · rw [afterMapN_fail _ _ _ _ _ _ hv]
      exact ⟨rfl, List.mem_cons_self _ _⟩
    · rw [afterMapN_fail _ _ _ _ _ _ hv]
      exact ⟨rfl, List.mem_cons_self _ _⟩
  · intro hv s0 n src dst dirs
    rw [mainTail]
    split
    · rw [afterMapN_success _ _ _ _ _ _ hv]
      exact ⟨rfl, List.mem_cons_self _ _⟩
    · rw [afterMapN_success _ _ _ _ _ _ hv]
      exact ⟨rfl, List.mem_cons_self _ _⟩

/-- Witness for C5: a remote listing with one fresh output file, one stale
output file and an unexamined file behind the stale one. -/
theorem C5_verifier_witness :
    verifyLoop 5 [⟨("a.kmz".data), 5⟩, ⟨("b.kmz".data), 2⟩, ⟨("c.kmz".data), 9⟩] =
      verifyLoop 5 [⟨("a.kmz".data), 5⟩, ⟨("b.kmz".data), 2⟩]
    ∧ verifyLoop 5 [⟨("a.kmz".data), 5⟩, ⟨("b.kmz".data), 2⟩, ⟨("c.kmz".data), 9⟩] =
      (false, [("a.kmz".data)]) := by
  have h := (C5_verifier 5
      [⟨("a.kmz".data), 5⟩, ⟨("b.kmz".data), 2⟩, ⟨("c.kmz".data), 9⟩]).2.1
    [⟨("a.kmz".data), 5⟩] ⟨("b.kmz".data), 2⟩ [⟨("c.kmz".data), 9⟩] []
    rfl (by decide) (by decide)
  exact ⟨h.1, (h.2 (by decide)).trans (by decide)⟩

/-- Helper: the endswith test is the suffix relation. -/
theorem pyEndsWith_iff (s suf : PyStr) : pyEndsWith s suf = true ↔ suf <:+ s := by
  simp [pyEndsWith]

/-- Helper: the dotted layer extension splits into the dot and the bare
suffix literal. -/
theorem dot_append_lyrx : ((".".data : PyStr) ++ lyrxSuffix) = (".lyrx".data) := by
  decide

/-- Helper: the dotted output extension splits into the dot and the bare
output literal. -/
theorem dot_append_kmz : ((".".data : PyStr) ++ ("kmz".data)) = (".kmz".data) := by
  decide

/-- Helper: a name built as base plus the dotted layer extension passes the
endswith test of the conversion loop. -/
theorem pyEndsWith_append_lyrx (b : PyStr) :
    pyEndsWith (b ++ (".lyrx".data)) lyrxSuffix = true := by
  rw [pyEndsWith_iff]
  refine ⟨b ++ (".".data), ?_⟩
  rw [List.append_assoc, dot_append_lyrx]

/-- Helper: dropping the last four characters of an appended four-character
tail recovers the front. -/
theorem pyDropLast_append_4 (b tail : PyStr) (h : tail.length = 4) :
    pyDropLast (b ++ tail) 4 = b := by
  unfold pyDropLast
  rw [List.length_append, h, Nat.add_sub_cancel, List.take_left]

/-- Helper: a name passing the endswith test decomposes as its first part
plus the four-character suffix. -/
theorem endsLyrx_decomp (g : PyStr) (h : pyEndsWith g lyrxSuffix = true) :
    g = pyDropLast g 4 ++ lyrxSuffix := by
  obtain ⟨pre, hpre⟩ := (pyEndsWith_iff g lyrxSuffix).mp h
  rw [← hpre, pyDropLast_append_4 pre lyrxSuffix rfl]

/-- Helper: in a duplicate-free list a member is matched exactly once. -/
theorem countP_eq_one_of_nodup_mem {α : Type} [DecidableEq α] (l : List α)
    (a : α) (hnd : l.Nodup) (ha : a ∈ l) :
    l.countP (fun g => decide (g = a)) = 1 := by
  induction l with
  | nil => cases ha
  | cons b rest ih =>
    obtain ⟨hb, hrest⟩ := List.pairwise_cons.mp hnd
    rcases List.mem_cons.mp ha with rfl | ha2
    · have hz : rest.countP (fun g => decide (g = a)) = 0 := by
        rw [List.countP_eq_zero]
        intro x hx
        simp only [decide_eq_true_eq]
        intro he
        exact hb x hx he.symm
      simp [List.countP_cons, hz]
    · have hba : b ≠ a := by
        intro he
        exact hb a ha2 he
      simp [List.countP_cons, hba, ih hrest ha2]

/-- Helper: the number of converter calls aimed at the output name derived
from fn equals the number of occurrences of fn in the directory listing. -/
theorem convertStep_dst_count (ld ed : PyStr) (fn : PyStr)
    (hfn : pyEndsWith fn lyrxSuffix = true) (files : List PyStr) :
    ((convertStep ld ed files).filter
      (fun c => decide
        (c.kmzEXPORT = ed ++ ("\\".data) ++ (pyDropLast fn 4 ++ ("kmz".data))))).length
    = files.countP (fun g => decide (g = fn)) := by
  induction files with
  | nil => rfl
  | cons g rest ih =>
    by_cases hg : pyEndsWith g lyrxSuffix = true
    · by_cases hgf : g = fn
      · subst hgf
        simp [convertStep, convOne, hg, List.countP_cons, List.filter_cons] at ih ⊢
        omega
      · have hne : pyDropLast g 4 ≠ pyDropLast fn 4 := by
          intro h2
          apply hgf
          rw [endsLyrx_decomp g hg, endsLyrx_decomp fn hfn, h2]
        simp [convertStep, convOne, hg, List.countP_cons, List.filter_cons,
          hne, hgf] at ih ⊢
        exact ih
    · have hgf : g ≠ fn := fun he => hg (he ▸ hfn)
      simp [convertStep, convOne, hg, List.countP_cons, hgf] at ih ⊢
      exact ih

/-- C2: a listed file named base plus the dotted layer extension yields
exactly one converter call, whose output path is the export directory entry
named base plus the dotted output extension; across the whole listing
exactly one call aims at that output name; and every call of the batch
passes the same fixed bounding box, image size, DPI and clamping mode. -/
theorem C2_conversion (ld ed base : PyStr) (files : List PyStr)
    (hmem : base ++ (".lyrx".data) ∈ files) (hnd : files.Nodup) :
    convOne ld ed (base ++ (".lyrx".data)) = some
      { layer_source := ld ++ ("\\".data) ++ (base ++ (".lyrx".data))
      , kmzEXPORT := ed ++ ("\\".data) ++ (base ++ (".kmz".data))
      , layerScale := 0, isComposite := "NO_COMPOSITE"
      , boundaryExtent := KMZ_BOUNDARY, imageSize := 1024, dpi := 96
      , heightClamp := "CLAMPED_TO_GROUND" }
    ∧ ((convertStep ld ed files).filter
        (fun c => decide
          (c.kmzEXPORT = ed ++ ("\\".data) ++ (base ++ (".kmz".data))))).length = 1
    ∧ ∀ c ∈ convertStep ld ed files,
        c.boundaryExtent = KMZ_BOUNDARY ∧ c.imageSize = 1024 ∧ c.dpi = 96
        ∧ c.heightClamp = "CLAMPED_TO_GROUND" := by
  have hsuf := pyEndsWith_append_lyrx base
  have hdrop : pyDropLast (base ++ (".lyrx".data)) 4 = base ++ (".".data) := by
    have hsplit : base ++ (".lyrx".data) = (base ++ (".".data)) ++ lyrxSuffix := by
      rw [List.append_assoc, dot_append_lyrx]
    rw [hsplit, pyDropLast_append_4 _ lyrxSuffix rfl]
  have hkmz : (base ++ (".".data)) ++ ("kmz".data) = base ++ (".kmz".data) := by
    rw [List.append_assoc, dot_append_kmz]
  refine ⟨?_, ?_, ?_⟩
  · rw [convOne, if_pos hsuf, hdrop, hkmz]
  · have hcount := convertStep_dst_count ld ed (base ++ (".lyrx".data)) hsuf files
    rw [hdrop, hkmz] at hcount
    rw [countP_eq_one_of_nodup_mem files _ hnd hmem] at hcount
    exact hcount
  · intro c hc
    obtain ⟨a, _, hconv⟩ := List.mem_filterMap.mp hc
    rw [convOne] at hconv
    by_cases hae : pyEndsWith a lyrxSuffix = true
    · rw [if_pos hae] at hconv
      obtain rfl : _ = c := Option.some.inj hconv
      exact ⟨rfl, rfl, rfl, rfl⟩
    · rw [if_neg hae] at hconv
      exact absurd hconv (by simp)

/-- Witness for C2 at a concrete one-file listing. -/
theorem C2_conversion_witness :
    ((convertStep ("L".data) ("E".data) [("road.lyrx".data)]).filter
      (fun c => decide
        (c.kmzEXPORT = ("E".data) ++ ("\\".data) ++ (("road".data) ++ (".kmz".data))))).length = 1 :=
  (C2_conversion ("L".data) ("E".data) ("road".data) [("road.lyrx".data)]
    (by decide) (by decide)).2.1

/-- Helper: the destination-entry test is symmetric. -/
theorem sameEntry_comm (a b : FileRec) : sameEntry a b = sameEntry b a := by
  unfold sameEntry
  apply decide_eq_decide.mpr
  constructor
  · exact fun h => ⟨h.1.symm, h.2.symm⟩
  · exact fun h => ⟨h.1.symm, h.2.symm⟩

/-- Helper: erasing by a predicate keeps every element the predicate
rejects. -/
theorem mem_eraseP_keep {α : Type} (p : α → Bool) (g : α) (hg : p g = false) :
    ∀ l : List α, g ∈ l → g ∈ l.eraseP p := by
  intro l
  induction l with
  | nil => intro h; cases h
  | cons a t ih =>
    intro hm
    rw [List.eraseP_cons]
    by_cases hpa : p a = true
    · rw [hpa]
      rcases List.mem_cons.mp hm with rfl | h2
      · rw [hpa] at hg; cases hg
      · exact h2
    · have hpa2 : p a = false := by simpa using hpa
      rw [hpa2]
      rcases List.mem_cons.mp hm with rfl | h2
      · exact List.mem_cons_self _ _
      · exact List.mem_cons_of_mem a (ih h2)

/-- Helper: the walked file adds its destination directory when missing. -/
theorem pubDirs_self_mem (f : FileRec) (dirs : List DirPath) :
    f.dirPath ∈ pubDirs f dirs := by
  unfold pubDirs
  split
  · assumption
  · exact List.mem_append_right _ (List.mem_singleton_self _)

/-- Helper: the publisher only ever adds destination directories. -/
theorem publishWalk_dirs_mono (src : List FileRec) :
    ∀ dst dirs, dirs ⊆ (publishWalk src dst dirs).2.2 := by
  induction src with
  | nil => intro dst dirs; exact fun x hx => hx
  | cons f rest ih =>
    intro dst dirs
    have hsub : dirs ⊆ pubDirs f dirs := by
      unfold pubDirs
      split
      · exact fun x hx => hx
      · exact List.subset_append_left _ _
    rw [publishWalk]
    cases hfind : dst.find? (fun x => sameEntry f x) with
    | none => exact hsub.trans (ih _ _)
    | some g =>
      dsimp only
      by_cases hid : g.fid = f.fid
      · rw [if_pos hid]
        exact hsub.trans (ih _ _)
      · rw [if_neg hid]
        exact hsub.trans (ih _ _)

/-- Helper: a destination file whose path and name match no source file is
still in the destination tree after the walk. -/
theorem publishWalk_dst_preserved (src : List FileRec) :
    ∀ dst dirs g, g ∈ dst → (∀ f ∈ src, sameEntry f g = false) →
      g ∈ (publishWalk src dst dirs).2.1 := by
  induction src with
  | nil => intro dst dirs g hg _; exact hg
  | cons f rest ih =>
    intro dst dirs g hg hall
    have hfg : sameEntry f g = false := hall f (List.mem_cons_self f rest)
    have hall2 : ∀ x ∈ rest, sameEntry x g = false := fun x hx =>
      hall x (List.mem_cons_of_mem f hx)
    rw [publishWalk]
    cases hfind : dst.find? (fun x => sameEntry f x) with
    | none => exact ih _ _ g (List.mem_append_left _ hg) hall2
    | some g2 =>
      dsimp only
      by_cases hid : g2.fid = f.fid
      · rw [if_pos hid]
        exact ih _ _ g hg hall2
      · rw [if_neg hid]
        exact ih _ _ g (List.mem_append_left _ (mem_eraseP_keep _ g hfg dst hg)) hall2

/-- C4 as stated is false: when the destination already holds literally the
same file as a walked source file, the walk skips it, no move happens and
the local export tree still contains that file after the run completes
successfully. -/
theorem C4_counterexample :
    (publishWalk [pubSame] [pubSame] [([] : DirPath)]).1 = [pubSame]
    ∧ (publishWalk [pubSame] [pubSame] [([] : DirPath)]).2.1 = [pubSame] := by
  decide

/-- C4 amended: for every file walked in the local export tree the missing
destination directory is created and, when no source file is literally the
same file as a destination file (and the source files have pairwise
distinct identities and pairwise distinct destination paths), every
pre-existing destination file in the way is removed, every source file is
moved to its mirrored destination path, and the local export tree ends up
with no files; a source file literally identical to its destination is
skipped and remains, which is the only exception. -/
theorem C4_amended (src : List FileRec) :
    ∀ (dst : List FileRec) (dirs : List DirPath),
      (∀ f ∈ src, ∀ g ∈ dst, f.fid ≠ g.fid) →
      src.Pairwise (fun a b => a.fid ≠ b.fid) →
      src.Pairwise (fun a b => sameEntry a b = false) →
      (publishWalk src dst dirs).1 = []
      ∧ ∀ f ∈ src, f ∈ (publishWalk src dst dirs).2.1
          ∧ f.dirPath ∈ (publishWalk src dst dirs).2.2 := by
  induction src with
  | nil =>
    intro dst dirs _ _ _
    exact ⟨rfl, fun f hf => absurd hf (List.not_mem_nil f)⟩
  | cons f rest ih =>
    intro dst dirs hid hfid hpn
    obtain ⟨hfid1, hfid2⟩ := List.pairwise_cons.mp hfid
    obtain ⟨hpn1, hpn2⟩ := List.pairwise_cons.mp hpn
    have hfmem : f ∈ f :: rest := List.mem_cons_self f rest
    rw [publishWalk]
    cases hfind : dst.find? (fun x => sameEntry f x) with
    | some g =>
      have hgmem : g ∈ dst := List.mem_of_find?_eq_some hfind
      have hne : f.fid ≠ g.fid := hid f hfmem g hgmem
      have hgf : ¬ (g.fid = f.fid) := fun he => hne he.symm
      dsimp only
      rw [if_neg hgf]
      have hidr : ∀ x ∈ rest,
          ∀ y ∈ dst.eraseP (fun x => sameEntry f x) ++ [f], x.fid ≠ y.fid := by
        intro x hx y hy
        rcases List.mem_append.mp hy with hy1 | hy2
        · exact hid x (List.mem_cons_of_mem f hx) y (List.mem_of_mem_eraseP hy1)
        · rw [List.mem_singleton.mp hy2]
          exact fun he => (hfid1 x hx) he.symm
      obtain ⟨hnil, hall⟩ :=
        ih (dst.eraseP (fun x => sameEntry f x) ++ [f]) (pubDirs f dirs)
          hidr hfid2 hpn2
      refine ⟨hnil, ?_⟩
      intro x hx
      rcases List.mem_cons.mp hx with rfl | hx2
      · refine ⟨?_, ?_⟩
        · apply publishWalk_dst_preserved rest _ (pubDirs x dirs) x
          · exact List.mem_append_right _ (List.mem_singleton_self x)
          · intro y hy
            rw [sameEntry_comm]
            exact hpn1 y hy
        · exact publishWalk_dirs_mono rest _ (pubDirs x dirs) (pubDirs_self_mem x dirs)
      · exact hall x hx2
    | none =>
      have hidr : ∀ x ∈ rest, ∀ y ∈ dst ++ [f], x.fid ≠ y.fid := by
        intro x hx y hy
        rcases List.mem_append.mp hy with hy1 | hy2
        · exact hid x (List.mem_cons_of_mem f hx) y hy1
        · rw [List.mem_singleton.mp hy2]
          exact fun he => (hfid1 x hx) he.symm
      obtain ⟨hnil, hall⟩ := ih (dst ++ [f]) (pubDirs f dirs) hidr hfid2 hpn2
      refine ⟨hnil, ?_⟩
      intro x hx
      rcases List.mem_cons.mp hx with rfl | hx2
      · refine ⟨?_, ?_⟩
        · apply publishWalk_dst_preserved rest _ (pubDirs x dirs) x
          · exact List.mem_append_right _ (List.mem_singleton_self x)
          · intro y hy
            rw [sameEntry_comm]
            exact hpn1 y hy
        · exact publishWalk_dirs_mono rest _ (pubDirs x dirs) (pubDirs_self_mem x dirs)
      · exact hall x hx2

/-- Witness for the amended C4 at a concrete one-file tree whose destination
holds a different file of the same name. -/
theorem C4_amended_witness :
    (publishWalk [{ dirPath := [], name := ("b.kmz".data), fid := 1 }]
      [{ dirPath := [], name := ("b.kmz".data), fid := 2 }] []).1 = []
    ∧ ({ dirPath := [], name := ("b.kmz".data), fid := 1 } : FileRec) ∈
        (publishWalk [{ dirPath := [], name := ("b.kmz".data), fid := 1 }]
          [{ dirPath := [], name := ("b.kmz".data), fid := 2 }] []).2.1
    ∧ ([] : DirPath) ∈
        (publishWalk [{ dirPath := [], name := ("b.kmz".data), fid := 1 }]
          [{ dirPath := [], name := ("b.kmz".data), fid := 2 }] []).2.2 := by
  have h := C4_amended [{ dirPath := [], name := ("b.kmz".data), fid := 1 }]
    [{ dirPath := [], name := ("b.kmz".data), fid := 2 }] []
    (by decide) (List.pairwise_singleton _ _) (List.pairwise_singleton _ _)
  exact ⟨h.1, (h.2 _ (List.mem_singleton_self _)).1,
    (h.2 _ (List.mem_singleton_self _)).2⟩

end KMZGen
